import Mathlib

/-!
Verification of the nlpia web module (src/nlpia/web.py).

The module is straight-line Python: URL normalization (try_parse_url),
filename resolution for Google Drive links (get_url_filename), the
confirmation-token handshake and the chunked download
(get_response_confirmation_token, save_response_content,
download_file_from_google_drive).

Embedding conventions:
  - Python str is modelled as `Str := List Char`; Python bytes chunks are
    modelled the same way (one Char per byte).
  - Fallible code returns `Except PyError _`; an uncaught Python exception
    is an `Except.error`.
  - Network effects (response cookies, the HTML title fetched by
    get_url_title) enter as explicit arguments, since they are inputs of
    the control flow being verified.
  - The external urllib.parse.urlparse is modelled by `urlparse` below,
    restricted to the two features web.py consumes: the scheme split and
    the "Invalid IPv6 URL" ValueError.
-/

/-- Python strings (and bytes chunks), modelled as lists of characters. -/
abbrev Str := List Char

/-- The characters Python str.strip and str.rstrip remove by default. -/
def py_is_space (c : Char) : Bool :=
  c = ' ' || c = '\t' || c = '\n' || c = '\r' || c = '\x0b' || c = '\x0c'

/-- Python s.rstrip(chars): remove the trailing characters satisfying p. -/
def py_rstrip (p : Char → Bool) (s : Str) : Str :=
  (s.reverse.dropWhile p).reverse

/-- Python s.strip() with no arguments: remove leading and trailing whitespace. -/
def py_strip (s : Str) : Str :=
  py_rstrip py_is_space (s.dropWhile py_is_space)

/-- Python substring membership, pat in s. -/
def py_contains (pat : Str) : Str → Bool
  | [] => pat.isEmpty
  | c :: rest => pat.isPrefixOf (c :: rest) || py_contains pat rest

/-- Worker for py_split. Python str.split(sep) scans left to right for
non-overlapping occurrences of a non-empty sep, cutting the string at each
one. The Nat argument is fuel bounding the recursion; py_split passes the
length of the string, which suffices because every step consumes at least
one character of it. -/
def py_split_aux (sep : Str) : Nat → Str → Str → List Str
  | 0, s, acc => [acc.reverse ++ s]
  | Nat.succ n, s, acc =>
    match s with
    | [] => [acc.reverse]
    | c :: rest =>
      if sep.isPrefixOf (c :: rest) then
        acc.reverse :: py_split_aux sep n ((c :: rest).drop sep.length) []
      else
        py_split_aux sep n rest (c :: acc)

/-- Python s.split(sep) for a non-empty separator. -/
def py_split (s sep : Str) : List Str :=
  py_split_aux sep s.length s []

/-- Python s.split(sep)[-1]: the piece after the last occurrence of sep
(the whole string when sep does not occur). -/
def py_split_last (s sep : Str) : Str :=
  (py_split s sep).getLastD []

/-- The marker "&id=" looked for at web.py line 246. -/
def amp_id_marker : Str := "&id=".data

/-- The marker "?id=" looked for at web.py line 249. -/
def q_id_marker : Str := "?id=".data

/-- Drive id extraction, web.py lines 246-251: two independent if
statements, each replacing driveid by the text after the last occurrence
of its marker when the marker is present. The second if inspects the
result of the first, not the original string. -/
def extract_driveid (driveid : Str) : Str :=
  let driveid :=
    if py_contains amp_id_marker driveid then py_split_last driveid amp_id_marker
    else driveid
  if py_contains q_id_marker driveid then py_split_last driveid q_id_marker
  else driveid

/-- The cookie-key test string of web.py line 218. -/
def download_warning_key : Str := "download_warning".data

/-- get_response_confirmation_token, web.py lines 216-220: the value of the
first response cookie whose key starts with "download_warning", else None.
Cookies are the (key, value) pairs of response.cookies.items(). -/
def get_response_confirmation_token : List (Str × Str) → Option Str
  | [] => none
  | (key, value) :: rest =>
    if download_warning_key.isPrefixOf key then some value
    else get_response_confirmation_token rest

/-- The query-parameter key "id" of web.py lines 257 and 261. -/
def id_param : Str := "id".data

/-- The query-parameter key "confirm" of web.py line 261. -/
def confirm_param : Str := "confirm".data

/-- Query parameters of the initial request, web.py line 257. -/
def first_request_params (driveid : Str) : List (Str × Str) :=
  [(id_param, driveid)]

/-- The query-parameter lists of the requests issued by
download_file_from_google_drive, web.py lines 257-262, as a function of the
initial response cookies. The guard `if token:` at line 260 is Python
truthiness: false for None and false for the empty string. -/
def drive_request_params (driveid : Str) (cookies : List (Str × Str)) :
    List (List (Str × Str)) :=
  let token := get_response_confirmation_token cookies
  match token with
  | some t =>
    if t.isEmpty then [first_request_params driveid]
    else [first_request_params driveid, [(id_param, driveid), (confirm_param, t)]]
  | none => [first_request_params driveid]

/-- The Python exceptions that web.py can raise uncaught on the modelled
paths: NameError for an unbound name, AttributeError for a missing
attribute (both carry the offending name). -/
inductive PyError where
  | nameError (name : Str)
  | attributeError (attr : Str)
deriving DecidableEq

deriving instance DecidableEq for Except

/-- The result of urllib.parse.urlparse, restricted to what web.py reads:
the scheme and the remainder of the URL after the scheme split (enough to
model geturl on the scheme-less results the code re-parses). -/
structure ParsedUrl where
  scheme : Str
  rest : Str
deriving DecidableEq

/-- ASCII letter test, as str.isalpha on ASCII input. -/
def py_is_alpha (c : Char) : Bool :=
  ('a' ≤ c && c ≤ 'z') || ('A' ≤ c && c ≤ 'Z')

/-- The characters urllib allows in a scheme after its first letter. -/
def scheme_char (c : Char) : Bool :=
  py_is_alpha c || ('0' ≤ c && c ≤ '9') || c = '+' || c = '-' || c = '.'

/-- ASCII lower-casing, as str.lower on ASCII input. -/
def py_to_lower (c : Char) : Char :=
  if 'A' ≤ c && c ≤ 'Z' then Char.ofNat (c.toNat + 32) else c

/-- Split a string at its first colon: some (before, after) when a colon
occurs, none otherwise (url.find in urlsplit). -/
def split_first_colon : Str → Option (Str × Str)
  | [] => none
  | c :: rest =>
    if c = ':' then some ([], rest)
    else
      match split_first_colon rest with
      | some (a, b) => some (c :: a, b)
      | none => none

/-- The scheme split of urllib.parse.urlsplit: when a colon occurs at a
positive position and everything before it is a letter followed by scheme
characters, the scheme is that text lower-cased and the rest is the text
after the colon; otherwise the scheme is empty and the URL is unchanged. -/
def scheme_split (url : Str) : Str × Str :=
  match split_first_colon url with
  | none => ([], url)
  | some (before, after) =>
    if !before.isEmpty && py_is_alpha (before.headD ' ')
        && before.all scheme_char then
      (before.map py_to_lower, after)
    else ([], url)

/-- The netloc urlsplit reads when the remainder starts with "//": the text
up to the next "/", "?" or "#". -/
def netloc_of (rest : Str) : Str :=
  (rest.drop 2).takeWhile (fun c => !(c = '/' || c = '?' || c = '#'))

/-- The "Invalid IPv6 URL" ValueError of urlsplit: a netloc holding one of
"[" and "]" without the other. -/
def invalid_ipv6 (rest : Str) : Bool :=
  if ("//").data.isPrefixOf rest then
    let netloc := netloc_of rest
    (netloc.contains '[' && !netloc.contains ']')
      || (netloc.contains ']' && !netloc.contains '[')
  else false

/-- Model of urllib.parse.urlparse: the scheme split, then the bracket
check on the netloc; Except.error stands for the ValueError it raises. -/
def urlparse (url : Str) : Except Unit ParsedUrl :=
  let p := scheme_split url
  if invalid_ipv6 p.2 then Except.error ()
  else Except.ok ⟨p.1, p.2⟩

/-- ParseResult.geturl, on this restricted model: re-attach the scheme when
there is one. web.py calls it only on scheme-less results, where it
returns the remainder unchanged (the original URL). -/
def geturl (p : ParsedUrl) : Str :=
  if p.scheme.isEmpty then p.rest else p.scheme ++ (":").data ++ p.rest

/-- The prefix prepended at web.py line 116. -/
def http_scheme_str : Str := "http://".data

/-- try_parse_url, web.py lines 103-123. Both urlparse calls sit in
try/except ValueError blocks whose handlers return None, so every path
yields Except.ok: a parsed URL or None. -/
def try_parse_url (url : Str) : Except PyError (Option ParsedUrl) :=
  if (py_strip url).length < 4 then Except.ok none
  else
    match urlparse url with
    | Except.error _ => Except.ok none
    | Except.ok parsed_url =>
      if !parsed_url.scheme.isEmpty then Except.ok (some parsed_url)
      else
        match urlparse (http_scheme_str ++ geturl parsed_url) with
        | Except.error _ => Except.ok none
        | Except.ok p2 =>
          if p2.scheme.isEmpty then Except.ok none
          else Except.ok (some p2)

/-- The Google Drive open-URL prefix of web.py line 207. -/
def google_open_base : Str := "https://drive.google.com/open?id=".data

/-- The host prefix tested at web.py line 208. -/
def google_drive_host : Str := "https://drive.google.com".data

/-- The title suffix stripped at web.py lines 210-211. -/
def google_drive_suffix : Str := "Google Drive".data

/-- The separator characters of the rstrip at web.py line 211. -/
def sep_char (c : Char) : Bool := c = '-' || c = ':'

/-- The URL get_url_filename works on, web.py line 207: the url argument
when truthy, else the canonical open URL built from the drive id. -/
def effective_drive_url (url : Option Str) (driveid : Str) : Str :=
  match url with
  | some u => if u.isEmpty then google_open_base ++ driveid else u
  | none => google_open_base ++ driveid

/-- The suffix strip of web.py line 211:
filename[:-len("Google Drive")].rstrip().rstrip("-:").rstrip(). -/
def strip_drive_title (t : Str) : Str :=
  py_rstrip py_is_space (py_rstrip sep_char
    (py_rstrip py_is_space (t.take (t.length - google_drive_suffix.length))))

/-- get_url_filename, web.py lines 197-213. The title argument is the
value produced by the external call get_url_title(url) at line 209 (none
models the None that get_url_title returns when retrieval fails). When the
URL is a drive.google.com one, the code runs filename.endswith(...) on
that value; on None this raises AttributeError. When the URL is not a
drive.google.com one the code logs a warning and falls off the end,
returning None. -/
def get_url_filename (title : Option Str) (url : Option Str) (driveid : Str) :
    Except PyError (Option Str) :=
  let u := effective_drive_url url driveid
  if google_drive_host.isPrefixOf u then
    match title with
    | none => Except.error (PyError.attributeError ("endswith").data)
    | some t =>
      if google_drive_suffix.isSuffixOf t then
        Except.ok (some (strip_drive_title t))
      else Except.ok (some t)
  else Except.ok none

/-- os.path.sep on the POSIX systems the module targets. -/
def path_sep : Char := '/'

/-- posixpath.join for two components: the second when it is absolute,
plain concatenation when the first is empty or ends with the separator,
otherwise the two joined by a separator. -/
def os_path_join (a b : Str) : Str :=
  if ([path_sep] : Str).isPrefixOf b then b
  else if a.isEmpty then a ++ b
  else if a.getLastD ' ' = path_sep then a ++ b
  else a ++ [path_sep] ++ b

/-- Modelled from the spec: expand_filepath from nlpia.futil is imported at
web.py line 17 but its source is not in src/. The spec says the destination
path has user-relative shorthand expanded and that tilde-prefixed paths are
supported via expansion, so a leading tilde is replaced by the home
directory, which enters as an explicit argument. -/
def expand_filepath (home : Str) (path : Str) : Str :=
  match path with
  | c :: rest => if c = '~' then home ++ rest else path
  | [] => []

/-- The destination path computed at web.py lines 226-230: the filename
itself when it contains os.path.sep, else the join of destination and
filename; then expand_filepath. -/
def save_full_destination_path (home filename destination : Str) : Str :=
  let full_destination_path :=
    if py_contains [path_sep] filename then filename
    else os_path_join destination filename
  expand_filepath home full_destination_path

/-- Claim-side definition, following the words of the spec (section 4.5):
the full destination path is the join of directory and filename unless the
filename itself already contains a path separator, in which case it is
used directly, and then user-relative shorthand is expanded. -/
def spec_destination_path (home filename destination : Str) : Str :=
  expand_filepath home
    (if filename.contains path_sep then filename else os_path_join destination filename)

/-- save_response_content, web.py lines 223-235, returning the outcome and
the files written (path, contents). Line 225 computes the chunk-size
fallback, lines 226-230 the destination path, and line 231 opens that path
for binary writing, truncating it. Line 232 then evaluates
response.iter_content(CHUNK_SIZE); the name CHUNK_SIZE is not bound
anywhere in the module, so a NameError is raised before any chunk is read
or written, and the opened file stays empty. The response argument is the
chunk list the body would have produced. -/
def save_response_content (home : Str) (response : List Str)
    (filename : Str) (destination : Str) (chunksize : Nat) :
    Except PyError Str × List (Str × Str) :=
  let _chunksize := if chunksize = 0 then 32768 else chunksize
  let full_destination_path := save_full_destination_path home filename destination
  (Except.error (PyError.nameError ("CHUNK_SIZE").data), [(full_destination_path, [])])

/-- Python truthiness of an optional string: None and the empty string are
falsy. -/
def py_truthy_opt : Option Str → Bool
  | none => false
  | some s => !s.isEmpty

/-- The network effects download_file_from_google_drive depends on: the
cookies of the initial response, and the HTML title that get_url_title
would fetch for the drive page (none when that retrieval fails). -/
structure DriveEnv where
  cookies : List (Str × Str)
  title : Option Str
deriving DecidableEq

/-- download_file_from_google_drive, web.py lines 240-268. Lines 246-251
extract the drive id; lines 253-262 issue the requests (drive_request_params);
line 264 resolves the filename, calling get_url_filename when the filename
argument is falsy, which can raise AttributeError. Line 266 then calls
save_response_content with the unbound name fileanme, raising NameError,
so line 268 (return os.path.abspath(destination)) is never reached. -/
def download_file_from_google_drive (env : DriveEnv) (driveid : Str)
    (filename : Option Str) (destination : Str) : Except PyError Str :=
  let driveid := extract_driveid driveid
  let _requests := drive_request_params driveid env.cookies
  let fn_result : Except PyError (Option Str) :=
    if py_truthy_opt filename then Except.ok filename
    else get_url_filename env.title none driveid
  match fn_result with
  | Except.error e => Except.error e
  | Except.ok _ => Except.error (PyError.nameError ("fileanme").data)

/-- os.path.abspath without the final normpath step: the path itself when
absolute, else the join with the current working directory, which enters
as an explicit argument. -/
def os_path_abspath (cwd p : Str) : Str :=
  if ([path_sep] : Str).isPrefixOf p then p else os_path_join cwd p

/-- The expression web.py line 268 would return on completion:
os.path.abspath(destination). -/
def download_return_value (cwd destination : Str) : Str :=
  os_path_abspath cwd destination

theorem isPrefixOf_append_self (x y : Str) : x.isPrefixOf (x ++ y) = true := by
  rw [List.isPrefixOf_iff_prefix]
  exact List.prefix_append x y

theorem google_open_base_split :
    google_open_base = google_drive_host ++ ("/open?id=").data := by decide

theorem default_drive_url_is_drive (driveid : Str) :
    google_drive_host.isPrefixOf (effective_drive_url none driveid) = true := by
  rw [show effective_drive_url none driveid = google_open_base ++ driveid from rfl,
    google_open_base_split, List.append_assoc]
  exact isPrefixOf_append_self google_drive_host (("/open?id=").data ++ driveid)

theorem get_url_filename_some_title_ok (t driveid : Str) :
    ∃ v, get_url_filename (some t) none driveid = Except.ok v := by
  simp only [get_url_filename, default_drive_url_is_drive driveid, if_true]
  split
  · exact ⟨_, rfl⟩
  · exact ⟨_, rfl⟩

theorem py_contains_single (c : Char) (s : Str) :
    py_contains [c] s = s.contains c := by
  induction s with
  | nil => rfl
  | cons a rest ih =>
    simp [py_contains, List.isPrefixOf, List.contains_cons, ih, beq_iff_eq,
      Bool.or_comm, eq_comm, Bool.beq_eq_decide_eq]

/-- C9: the chunksize argument of save_response_content is never used to
read the response: the chunk loop evaluates the unbound global CHUNK_SIZE
(which occurs nowhere else in the module), so every call that reaches the
loop raises NameError, and the outcome is independent of the chunksize
passed. -/
theorem C9_chunksize_unused (home : Str) (response : List Str)
    (filename destination : Str) (chunksize chunksize' : Nat) :
    (save_response_content home response filename destination chunksize).1
        = Except.error (PyError.nameError ("CHUNK_SIZE").data) ∧
      save_response_content home response filename destination chunksize
        = save_response_content home response filename destination chunksize' :=
  ⟨rfl, rfl⟩

/-- C3: evaluating save_response_content at the body [b"abc", b"", b"def"]
with chunksize 3 (the spec scenario). The claim says the written file
holds b"abcdef"; the code instead raises NameError on the unbound name
CHUNK_SIZE before reading any chunk, leaving the opened file empty. -/
theorem C3_chunk_loop_name_error :
    save_response_content ("/home/u").data [("abc").data, [], ("def").data]
        ("data.csv").data (".").data 3
      = (Except.error (PyError.nameError ("CHUNK_SIZE").data),
         [(("./data.csv").data, [])]) ∧
    (save_response_content ("/home/u").data [("abc").data, [], ("def").data]
        ("data.csv").data (".").data 3).2
      ≠ [(("./data.csv").data, ("abcdef").data)] := by decide

/-- C4: the destination path of save_response_content is the join of
directory and filename unless the filename contains a path separator (then
the filename directly), with user-relative shorthand expanded; the file is
opened at exactly that path. The final conjunct records that the function
never returns this path: it raises NameError (unbound CHUNK_SIZE) before
reaching its return statement. -/
theorem C4_destination_path (home filename destination : Str)
    (response : List Str) (chunksize : Nat) :
    save_full_destination_path home filename destination
        = spec_destination_path home filename destination ∧
      (save_response_content home response filename destination chunksize).2
        = [(spec_destination_path home filename destination, [])] ∧
      (save_response_content home response filename destination chunksize).1
        = Except.error (PyError.nameError ("CHUNK_SIZE").data) := by
  have h : save_full_destination_path home filename destination
      = spec_destination_path home filename destination := by
    simp [save_full_destination_path, spec_destination_path, py_contains_single]
  exact ⟨h, by rw [← h]; rfl, rfl⟩

/-- C7: try_parse_url never raises: for every input string it returns a
parsed URL or None (both urlparse calls sit inside try/except ValueError),
and every string whose trimmed length is below 4 yields None. -/
theorem C7_try_parse_url_total (url : Str) :
    (∃ r, try_parse_url url = Except.ok r) ∧
    ((py_strip url).length < 4 → try_parse_url url = Except.ok none) := by
  constructor
  · unfold try_parse_url
    split
    · exact ⟨_, rfl⟩
    · split
      · exact ⟨_, rfl⟩
      · split
        · exact ⟨_, rfl⟩
        · split
          · exact ⟨_, rfl⟩
          · split
            · exact ⟨_, rfl⟩
            · exact ⟨_, rfl⟩
  · intro h
    unfold try_parse_url
    rw [if_pos h]

/-- Witness for C7_try_parse_url_total at the two-character input "ab". -/
theorem C7_try_parse_url_total_witness :
    try_parse_url ("ab").data = Except.ok none :=
  (C7_try_parse_url_total ("ab").data).2 (by decide)

/-- C6 counterexample: a drive.google.com URL whose title retrieval failed
(absent title). The claim says filename resolution produces an absent
result without raising; the code instead calls endswith on None and
raises AttributeError. -/
theorem C6_counterexample :
    get_url_filename none (some (("https://drive.google.com/open?id=X").data))
        ("X").data
      = Except.error (PyError.attributeError ("endswith").data) ∧
    get_url_filename none (some (("https://drive.google.com/open?id=X").data))
        ("X").data
      ≠ Except.ok none := by decide

/-- C6 amended: whenever title retrieval fails while resolving a
drive.google.com URL, filename resolution raises AttributeError (None has
no endswith attribute) instead of returning an absent filename. -/
theorem C6_absent_title_raises (url : Option Str) (driveid : Str)
    (h : google_drive_host.isPrefixOf (effective_drive_url url driveid) = true) :
    get_url_filename none url driveid
      = Except.error (PyError.attributeError ("endswith").data) := by
  simp only [get_url_filename, h, if_true]

/-- Witness for C6_absent_title_raises: the driveid entry point with no
URL argument. -/
theorem C6_absent_title_raises_witness :
    get_url_filename none none ("X").data
      = Except.error (PyError.attributeError ("endswith").data) :=
  C6_absent_title_raises none ("X").data (by decide)

theorem get_response_confirmation_token_none_iff (cookies : List (Str × Str)) :
    get_response_confirmation_token cookies = none ↔
      ∀ kv ∈ cookies, download_warning_key.isPrefixOf kv.1 = false := by
  induction cookies with
  | nil => simp [get_response_confirmation_token]
  | cons kv rest ih =>
    obtain ⟨k, v⟩ := kv
    by_cases h : download_warning_key.isPrefixOf k = true
    · simp [get_response_confirmation_token, h]
    · have hk : download_warning_key.isPrefixOf k = false := by
        cases hx : download_warning_key.isPrefixOf k
        · rfl
        · exact absurd hx h
      rw [show get_response_confirmation_token ((k, v) :: rest)
            = get_response_confirmation_token rest by
          simp [get_response_confirmation_token, hk]]
      rw [ih, List.forall_mem_cons]
      exact ⟨fun hr => ⟨hk, hr⟩, fun hr => hr.2⟩

/-- C1 counterexample: a response carrying the cookie
download_warning_13Ab with the empty string as value. A cookie key
starting with download_warning exists, yet only the initial request is
issued, because `if token:` is false for an empty token. -/
theorem C1_counterexample :
    (∃ kv ∈ [((("download_warning_13Ab").data : Str), ([] : Str))],
        download_warning_key.isPrefixOf kv.1 = true) ∧
      drive_request_params ("X").data [(("download_warning_13Ab").data, [])]
        = [first_request_params ("X").data] := by decide

/-- C1 amended: a second request is issued if and only if the extracted
token exists and is non-empty (the token being the value of the first
cookie whose key starts with download_warning, whose existence the third
conjunct characterises); the second request then carries the same drive id
and confirm equal to the token; with no matching cookie only the initial
request is issued. -/
theorem C1_token_handshake (driveid : Str) (cookies : List (Str × Str)) :
    ((drive_request_params driveid cookies).length = 2 ↔
      ∃ t, get_response_confirmation_token cookies = some t ∧ t ≠ []) ∧
    (∀ t, get_response_confirmation_token cookies = some t → t ≠ [] →
      drive_request_params driveid cookies
        = [first_request_params driveid,
           [(id_param, driveid), (confirm_param, t)]]) ∧
    (get_response_confirmation_token cookies = none ↔
      ∀ kv ∈ cookies, download_warning_key.isPrefixOf kv.1 = false) ∧
    ((∀ kv ∈ cookies, download_warning_key.isPrefixOf kv.1 = false) →
      drive_request_params driveid cookies = [first_request_params driveid]) := by
  refine ⟨?_, ?_, get_response_confirmation_token_none_iff cookies, ?_⟩
  · cases htok : get_response_confirmation_token cookies with
    | none => simp [drive_request_params, htok]
    | some t =>
      cases t with
      | nil => simp [drive_request_params, htok]
      | cons c ts =>
        simp [drive_request_params, htok]
  · intro t htok hne
    cases t with
    | nil => exact absurd rfl hne
    | cons c ts => simp [drive_request_params, htok]
  · intro hall
    have : get_response_confirmation_token cookies = none :=
      (get_response_confirmation_token_none_iff cookies).mpr hall
    simp [drive_request_params, this]

/-- Witness for C1_token_handshake: a download_warning cookie with the
non-empty value TOKEN123 makes the second request carry confirm=TOKEN123. -/
theorem C1_token_handshake_witness :
    drive_request_params ("X").data
        [(("download_warning_13Ab").data, ("TOKEN123").data)]
      = [first_request_params ("X").data,
         [(id_param, ("X").data), (confirm_param, ("TOKEN123").data)]] :=
  (C1_token_handshake ("X").data
      [(("download_warning_13Ab").data, ("TOKEN123").data)]).2.1
    ("TOKEN123").data (by decide) (by decide)

/-- C10: download_file_from_google_drive never completes normally. Every
call yields an exception; every call that reaches the save step (the
filename argument is truthy, or the title fetch succeeded so that line 264
does not raise first) raises NameError on the unbound name fileanme. The
last conjunct records that the return expression of line 268 is the
absolute path of the destination directory, which differs from the full
path the writer would have produced for the downloaded file. -/
theorem C10_download_never_completes (env : DriveEnv) (driveid : Str)
    (filename : Option Str) (destination : Str) :
    (∃ e, download_file_from_google_drive env driveid filename destination
        = Except.error e) ∧
    (py_truthy_opt filename = true ∨ env.title ≠ none →
      download_file_from_google_drive env driveid filename destination
        = Except.error (PyError.nameError ("fileanme").data)) ∧
    download_return_value ("/workdir").data ("data").data
      ≠ save_full_destination_path ("/home/u").data ("file.csv").data
          ("data").data := by
  have heq : download_file_from_google_drive env driveid filename destination
      = match (if py_truthy_opt filename then Except.ok filename
          else get_url_filename env.title none (extract_driveid driveid)) with
        | Except.error e => Except.error e
        | Except.ok _ => Except.error (PyError.nameError ("fileanme").data) := rfl
  refine ⟨?_, ?_, by decide⟩
  · rw [heq]
    cases hfn : (if py_truthy_opt filename then Except.ok filename
        else get_url_filename env.title none (extract_driveid driveid)) with
    | error e => exact ⟨e, rfl⟩
    | ok v => exact ⟨_, rfl⟩
  · intro h
    rw [heq]
    rcases h with h | h
    · rw [if_pos h]
    · rcases henv : env.title with _ | t
      · exact absurd henv h
      · by_cases ht : py_truthy_opt filename = true
        · rw [if_pos ht]
        · rw [if_neg ht]
          obtain ⟨w, hw⟩ :=
            get_url_filename_some_title_ok t (extract_driveid driveid)
          rw [hw]

theorem py_split_aux_no_occurrence (sep : Str) :
    ∀ (n : Nat) (s acc : Str), s.length ≤ n → py_contains sep s = false →
      py_split_aux sep n s acc = [acc.reverse ++ s] := by
  intro n
  induction n with
  | zero =>
    intro s acc _ _
    rfl
  | succ n ih =>
    intro s acc hlen hocc
    cases s with
    | nil => simp [py_split_aux]
    | cons c rest =>
      have hpre : sep.isPrefixOf (c :: rest) = false := by
        cases hx : sep.isPrefixOf (c :: rest)
        · rfl
        · rw [py_contains, hx] at hocc
          simp at hocc
      have hrest : py_contains sep rest = false := by
        rw [py_contains, hpre] at hocc
        simpa using hocc
      rw [show py_split_aux sep (n + 1) (c :: rest) acc
            = py_split_aux sep n rest (c :: acc) by
          simp [py_split_aux, hpre]]
      rw [ih rest (c :: acc) (Nat.le_of_succ_le_succ hlen) hrest]
      simp

theorem py_split_aux_step_match (sep : Str) (n : Nat) (s acc : Str)
    (hne : sep ≠ []) (hpre : sep.isPrefixOf s = true) :
    py_split_aux sep (n + 1) s acc
      = acc.reverse :: py_split_aux sep n (s.drop sep.length) [] := by
  cases s with
  | nil =>
    rcases sep with _ | ⟨c, s'⟩
    · exact absurd rfl hne
    · simp [List.isPrefixOf] at hpre
  | cons c rest => simp [py_split_aux, hpre]

theorem py_split_aux_step_skip (sep : Str) (n : Nat) (c : Char) (rest acc : Str)
    (hp : sep.isPrefixOf (c :: rest) = false) :
    py_split_aux sep (n + 1) (c :: rest) acc
      = py_split_aux sep n rest (c :: acc) := by
  simp [py_split_aux, hp]

theorem py_split_aux_getLastD (sep : Str) (hne : sep ≠ [])
    (hno : ∀ k, k < sep.length → 0 < k → sep.drop k ≠ sep.take (sep.length - k))
    (b : Str) (hb : py_contains sep b = false) :
    ∀ (n : Nat) (a acc d : Str), (a ++ (sep ++ b)).length ≤ n →
      (py_split_aux sep n (a ++ (sep ++ b)) acc).getLastD d = b := by
  have hsep_pos : 0 < sep.length := by
    rcases sep with _ | ⟨x, s'⟩
    · exact absurd rfl hne
    · simp
  intro n
  induction n with
  | zero =>
    intro a acc d hlen
    exfalso
    have h1 : sep.length ≤ (a ++ (sep ++ b)).length := by
      simp only [List.length_append]
      omega
    omega
  | succ n ih =>
    intro a acc d hlen
    cases a with
    | nil =>
      rw [List.nil_append] at hlen ⊢
      rw [py_split_aux_step_match sep n (sep ++ b) acc hne
        (isPrefixOf_append_self sep b)]
      rw [List.drop_left]
      have hblen : b.length ≤ n := by
        simp [List.length_append] at hlen
        omega
      rw [py_split_aux_no_occurrence sep n b [] hblen hb]
      simp [List.getLastD_cons]
    | cons c a' =>
      rw [List.cons_append]
      cases hp : sep.isPrefixOf (c :: (a' ++ (sep ++ b))) with
      | false =>
        rw [py_split_aux_step_skip sep n c (a' ++ (sep ++ b)) acc hp]
        refine ih a' (c :: acc) d ?_
        simp only [List.length_append, List.length_cons] at hlen ⊢
        omega
      | true =>
        have hlen2 : sep.length ≤ (c :: a').length := by
          by_contra hlt
          push_neg at hlt
          have hpx : sep <+: ((c :: a') ++ (sep ++ b)) := by
            rw [← List.isPrefixOf_iff_prefix, List.cons_append]
            exact hp
          obtain ⟨r, hr⟩ := hpx
          have ha_le : (c :: a').length ≤ sep.length := Nat.le_of_lt hlt
          have hdrop : sep.drop (c :: a').length ++ r = sep ++ b := by
            have h1 : (sep ++ r).drop (c :: a').length
                = ((c :: a') ++ (sep ++ b)).drop (c :: a').length := by rw [hr]
            rw [List.drop_left] at h1
            rw [List.drop_append_eq_append_drop,
              Nat.sub_eq_zero_of_le ha_le, List.drop_zero] at h1
            exact h1
          have heq2 : sep.drop (c :: a').length
              = sep.take (sep.length - (c :: a').length) := by
            have hlen3 : (sep.drop (c :: a').length).length
                = sep.length - (c :: a').length := List.length_drop _ _
            have h2 : (sep.drop (c :: a').length ++ r).take
                  (sep.length - (c :: a').length)
                = (sep ++ b).take (sep.length - (c :: a').length) := by rw [hdrop]
            rw [List.take_left' hlen3] at h2
            rw [List.take_append_eq_append_take,
              Nat.sub_eq_zero_of_le (Nat.sub_le _ _), List.take_zero,
              List.append_nil] at h2
            exact h2
          exact hno (c :: a').length hlt (by simp) heq2
        rw [show (c :: (a' ++ (sep ++ b))) = (c :: a') ++ (sep ++ b) from rfl]
        rw [py_split_aux_step_match sep n ((c :: a') ++ (sep ++ b)) acc hne
          (by rw [List.cons_append]; exact hp)]
        rw [List.drop_append_eq_append_drop,
          Nat.sub_eq_zero_of_le hlen2, List.drop_zero]
        rw [List.getLastD_cons]
        refine ih ((c :: a').drop sep.length) [] acc.reverse ?_
        simp only [List.length_append, List.length_cons, List.length_drop]
          at hlen ⊢
        omega

theorem py_contains_append_self (sep : Str) (hne : sep ≠ []) (a b : Str) :
    py_contains sep (a ++ (sep ++ b)) = true := by
  induction a with
  | nil =>
    rw [List.nil_append]
    have hpre : sep.isPrefixOf (sep ++ b) = true := isPrefixOf_append_self sep b
    rcases hs : sep ++ b with _ | ⟨c, rest⟩
    · exfalso
      rcases sep with _ | ⟨x, s'⟩
      · exact absurd rfl hne
      · simp at hs
    · have hpre2 : sep.isPrefixOf (c :: rest) = true := by
        rw [← hs]
        exact hpre
      simp [py_contains, hpre2]
  | cons c a' ih =>
    rw [List.cons_append]
    simp [py_contains, ih]

theorem py_split_last_append (sep : Str) (hne : sep ≠ [])
    (hno : ∀ k, k < sep.length → 0 < k → sep.drop k ≠ sep.take (sep.length - k))
    (a b : Str) (hb : py_contains sep b = false) :
    py_split_last (a ++ sep ++ b) sep = b := by
  rw [List.append_assoc]
  unfold py_split_last py_split
  exact py_split_aux_getLastD sep hne hno b hb _ a [] [] (Nat.le_refl _)

theorem extract_driveid_eq (s : Str) :
    extract_driveid s
      = (if py_contains q_id_marker
            (if py_contains amp_id_marker s then py_split_last s amp_id_marker
             else s)
         then py_split_last
            (if py_contains amp_id_marker s then py_split_last s amp_id_marker
             else s) q_id_marker
         else (if py_contains amp_id_marker s then py_split_last s amp_id_marker
               else s)) := rfl

/-- C2 counterexample: the string x&id=y?id=z contains the marker &id=,
and the text after its last occurrence is y?id=z, so the claim says that
is the extracted id; the code extracts z, because the ?id= rule is applied
to the result of the &id= rule rather than only when that rule does not
apply. -/
theorem C2_counterexample :
    py_contains amp_id_marker (("x&id=y?id=z").data) = true ∧
    py_split_last (("x&id=y?id=z").data) amp_id_marker = ("y?id=z").data ∧
    extract_driveid (("x&id=y?id=z").data) = ("z").data ∧
    extract_driveid (("x&id=y?id=z").data)
      ≠ py_split_last (("x&id=y?id=z").data) amp_id_marker := by decide

/-- C2 amended: the two extraction rules apply in sequence, not
exclusively: first, if &id= occurs, the string becomes the text after its
last occurrence; then, if ?id= occurs in the resulting string, that
becomes the text after its last occurrence. Hence for a ++ &id= ++ b with
b free of both markers the extracted id is exactly b; for a ++ ?id= ++ b
with no &id= anywhere and b free of ?id= it is exactly b; a string with
neither marker is returned unchanged. -/
theorem C2_extraction_sequential :
    (∀ a b : Str, py_contains amp_id_marker b = false →
      py_contains q_id_marker b = false →
      extract_driveid (a ++ amp_id_marker ++ b) = b) ∧
    (∀ a b : Str, py_contains amp_id_marker (a ++ q_id_marker ++ b) = false →
      py_contains q_id_marker b = false →
      extract_driveid (a ++ q_id_marker ++ b) = b) ∧
    (∀ s : Str, py_contains amp_id_marker s = false →
      py_contains q_id_marker s = false → extract_driveid s = s) := by
  have hno_amp : ∀ k, k < amp_id_marker.length → 0 < k →
      amp_id_marker.drop k ≠ amp_id_marker.take (amp_id_marker.length - k) := by
    decide
  have hno_q : ∀ k, k < q_id_marker.length → 0 < k →
      q_id_marker.drop k ≠ q_id_marker.take (q_id_marker.length - k) := by
    decide
  refine ⟨?_, ?_, ?_⟩
  · intro a b hb1 hb2
    have hin : py_contains amp_id_marker (a ++ amp_id_marker ++ b) = true := by
      have h := py_contains_append_self amp_id_marker (by decide) a b
      rwa [← List.append_assoc] at h
    have hsplit : py_split_last (a ++ amp_id_marker ++ b) amp_id_marker = b :=
      py_split_last_append amp_id_marker (by decide) hno_amp a b hb1
    rw [extract_driveid_eq, hin]
    simp only [if_true, hsplit, hb2, Bool.false_eq_true, if_false]
  · intro a b hb1 hb2
    have hin : py_contains q_id_marker (a ++ q_id_marker ++ b) = true := by
      have h := py_contains_append_self q_id_marker (by decide) a b
      rwa [← List.append_assoc] at h
    have hsplit : py_split_last (a ++ q_id_marker ++ b) q_id_marker = b :=
      py_split_last_append q_id_marker (by decide) hno_q a b hb2
    rw [extract_driveid_eq, hb1]
    simp only [Bool.false_eq_true, if_false, hin, if_true, hsplit]
  · intro s h1 h2
    rw [extract_driveid_eq, h1]
    simp only [Bool.false_eq_true, if_false, h2]

/-- Witness for C2_extraction_sequential: extraction from a URL-shaped
string carrying the id after the marker &id=. -/
theorem C2_extraction_sequential_witness :
    extract_driveid (("uc?export=download").data ++ amp_id_marker
        ++ ("FILE123").data)
      = ("FILE123").data :=
  C2_extraction_sequential.1 ("uc?export=download").data ("FILE123").data
    (by decide) (by decide)

/-- Witness for C10_download_never_completes: even a call with an explicit
filename raises the fileanme NameError. -/
theorem C10_download_never_completes_witness :
    download_file_from_google_drive ⟨[], none⟩ ("ID").data
        (some ("f.csv").data) (".").data
      = Except.error (PyError.nameError ("fileanme").data) :=
  (C10_download_never_completes ⟨[], none⟩ ("ID").data
      (some ("f.csv").data) (".").data).2.1 (Or.inl (by decide))

theorem py_rstrip_decomposition (p : Char → Bool) (s : Str) :
    ∃ run, s = py_rstrip p s ++ run ∧ (∀ c ∈ run, p c = true) ∧
      (∀ c, (py_rstrip p s).getLast? = some c → p c = false) := by
  refine ⟨(s.reverse.takeWhile p).reverse, ?_, ?_, ?_⟩
  · have h1 : s = (s.reverse.takeWhile p ++ s.reverse.dropWhile p).reverse := by
      rw [List.takeWhile_append_dropWhile, List.reverse_reverse]
    rw [List.reverse_append] at h1
    exact h1
  · intro c hc
    rw [List.mem_reverse] at hc
    exact List.mem_takeWhile_imp hc
  · intro c hc
    have hc2 : (s.reverse.dropWhile p).head? = some c := by
      rw [← List.getLast?_reverse]
      exact hc
    have h := List.head?_dropWhile_not p s.reverse
    rw [hc2] at h
    exact h

theorem get_url_filename_strips (t driveid : Str)
    (h : google_drive_suffix.isSuffixOf t = true) :
    get_url_filename (some t) none driveid
      = Except.ok (some (strip_drive_title t)) := by
  simp only [get_url_filename, default_drive_url_is_drive driveid, if_true, h]

theorem take_of_suffix (t : Str) (h : google_drive_suffix.isSuffixOf t = true) :
    ∃ pre, t = pre ++ google_drive_suffix ∧
      t.take (t.length - google_drive_suffix.length) = pre := by
  rw [List.isSuffixOf_iff_suffix] at h
  obtain ⟨pre, hpre⟩ := h
  refine ⟨pre, hpre.symm, ?_⟩
  rw [← hpre]
  have hl : pre.length
      = (pre ++ google_drive_suffix).length - google_drive_suffix.length := by
    simp [List.length_append]
  exact List.take_left' hl

/-- C5: for every retrieved title ending in the literal suffix
"Google Drive", filename resolution succeeds and returns the title with
that suffix removed together with the surrounding runs the code strips:
first trailing whitespace, then trailing separator characters, then
whitespace again; the returned name never ends in whitespace. -/
theorem C5_title_suffix_strip (t driveid : Str)
    (h : google_drive_suffix.isSuffixOf t = true) :
    ∃ r w2 seps w1,
      get_url_filename (some t) none driveid = Except.ok (some r) ∧
      t = r ++ w2 ++ seps ++ w1 ++ google_drive_suffix ∧
      (∀ c ∈ w2, py_is_space c = true) ∧
      (∀ c ∈ seps, sep_char c = true) ∧
      (∀ c ∈ w1, py_is_space c = true) ∧
      (∀ c, r.getLast? = some c → py_is_space c = false) := by
  obtain ⟨pre, hpre, htake⟩ := take_of_suffix t h
  obtain ⟨w1, hw1, hw1p, _⟩ := py_rstrip_decomposition py_is_space pre
  obtain ⟨seps, hseps, hsepsp, _⟩ :=
    py_rstrip_decomposition sep_char (py_rstrip py_is_space pre)
  obtain ⟨w2, hw2, hw2p, hlast⟩ :=
    py_rstrip_decomposition py_is_space
      (py_rstrip sep_char (py_rstrip py_is_space pre))
  have hst : strip_drive_title t
      = py_rstrip py_is_space
          (py_rstrip sep_char (py_rstrip py_is_space pre)) := by
    rw [strip_drive_title, htake]
  refine ⟨strip_drive_title t, w2, seps, w1,
    get_url_filename_strips t driveid h, ?_, hw2p, hsepsp, hw1p, ?_⟩
  · rw [hst]
    calc t = pre ++ google_drive_suffix := hpre
      _ = (py_rstrip py_is_space pre ++ w1) ++ google_drive_suffix := by
          rw [← hw1]
      _ = ((py_rstrip sep_char (py_rstrip py_is_space pre) ++ seps) ++ w1)
            ++ google_drive_suffix := by
          rw [← hseps]
      _ = (((py_rstrip py_is_space
              (py_rstrip sep_char (py_rstrip py_is_space pre)) ++ w2) ++ seps)
            ++ w1) ++ google_drive_suffix := by
          rw [← hw2]
  · rw [hst]
    exact hlast

/-- Witness for C5_title_suffix_strip at the spec example title
"My File - Google Drive"; the first conjunct checks the resolved filename
is exactly "My File". -/
theorem C5_title_suffix_strip_witness :
    get_url_filename (some (("My File - Google Drive").data)) none ("X").data
        = Except.ok (some (("My File").data)) ∧
      (∃ r w2 seps w1,
        get_url_filename (some (("My File - Google Drive").data)) none
            ("X").data
          = Except.ok (some r) ∧
        ("My File - Google Drive").data
          = r ++ w2 ++ seps ++ w1 ++ google_drive_suffix ∧
        (∀ c ∈ w2, py_is_space c = true) ∧
        (∀ c ∈ seps, sep_char c = true) ∧
        (∀ c ∈ w1, py_is_space c = true) ∧
        (∀ c, r.getLast? = some c → py_is_space c = false)) :=
  ⟨by decide,
   C5_title_suffix_strip (("My File - Google Drive").data) ("X").data
     (by decide)⟩

theorem split_first_colon_append (a b : Str) (ha : a.contains ':' = false) :
    split_first_colon (a ++ (':' :: b)) = some (a, b) := by
  induction a with
  | nil => simp [split_first_colon]
  | cons c a' ih =>
    rw [List.contains_cons, Bool.or_eq_false_iff] at ha
    obtain ⟨hc, ha'⟩ := ha
    have hc2 : ¬ (c = ':') := by
      intro hcc
      rw [hcc] at hc
      simp at hc
    rw [List.cons_append]
    rw [show split_first_colon (c :: (a' ++ (':' :: b)))
          = (if c = ':' then some ([], a' ++ (':' :: b))
             else match split_first_colon (a' ++ (':' :: b)) with
                  | some (x, y) => some (c :: x, y)
                  | none => none) from rfl]
    rw [if_neg hc2, ih ha']

theorem scheme_split_http (s : Str) :
    scheme_split (http_scheme_str ++ s) = (("http").data, ("//").data ++ s) := by
  have h0 : http_scheme_str ++ s = ("http").data ++ (':' :: (("//").data ++ s)) := by
    rw [show http_scheme_str = ("http").data ++ (':' :: ("//").data) by decide]
    rw [List.append_assoc]
    rfl
  rw [h0]
  simp only [scheme_split,
    split_first_colon_append ("http").data (("//").data ++ s) (by decide),
    show (!("http").data.isEmpty && py_is_alpha (("http").data.headD ' ')
        && ("http").data.all scheme_char) = true by decide,
    if_true,
    show ("http").data.map py_to_lower = ("http").data by decide]

theorem urlparse_eq (url : Str) :
    urlparse url
      = (if invalid_ipv6 (scheme_split url).2 then Except.error ()
         else Except.ok ⟨(scheme_split url).1, (scheme_split url).2⟩) := rfl

theorem urlparse_http_prepend (s : Str) :
    urlparse (http_scheme_str ++ s)
      = (if invalid_ipv6 (("//").data ++ s) then Except.error ()
         else Except.ok ⟨("http").data, ("//").data ++ s⟩) := by
  rw [urlparse_eq, scheme_split_http]

/-- C8 counterexample: the input a:b parses with the non-empty scheme a,
yet normalization does not return this parsed form with its scheme: the
trimmed input is shorter than 4 characters, so try_parse_url returns the
absent result. -/
theorem C8_counterexample :
    urlparse (("a:b").data) = Except.ok ⟨("a").data, ("b").data⟩ ∧
    (("a").data : Str) ≠ [] ∧
    try_parse_url (("a:b").data) = Except.ok none := by decide

/-- C8 amended: for URL strings whose trimmed length is at least 4 and
that parse successfully: when the parse has a scheme the parsed form is
returned unchanged; when it has no scheme the string is re-parsed with
http:// prepended, and if that re-parse succeeds the returned parsed URL
is that result, whose scheme is exactly http, while if the re-parse raises
ValueError the result is absent. -/
theorem C8_scheme_normalization (url : Str) (p : ParsedUrl)
    (hlen : 4 ≤ (py_strip url).length) (hp : urlparse url = Except.ok p) :
    (p.scheme ≠ [] → try_parse_url url = Except.ok (some p)) ∧
    (p.scheme = [] →
      (∀ p2, urlparse (http_scheme_str ++ geturl p) = Except.ok p2 →
        try_parse_url url = Except.ok (some p2)
          ∧ p2.scheme = ("http").data) ∧
      (urlparse (http_scheme_str ++ geturl p) = Except.error () →
        try_parse_url url = Except.ok none)) := by
  have hnotlt : ¬ ((py_strip url).length < 4) := by omega
  constructor
  · intro hs
    have hb : (!p.scheme.isEmpty) = true := by
      rcases hps : p.scheme with _ | ⟨c, l⟩
      · exact absurd hps hs
      · rfl
    simp only [try_parse_url, if_neg hnotlt, hp, hb, if_true]
  · intro hs
    have hb : (!p.scheme.isEmpty) = false := by
      rw [hs]
      rfl
    constructor
    · intro p2 hp2
      have hform : p2 = ⟨("http").data, ("//").data ++ geturl p⟩ := by
        rw [urlparse_http_prepend (geturl p)] at hp2
        by_cases hiv : invalid_ipv6 (("//").data ++ geturl p) = true
        · rw [if_pos hiv] at hp2
          exact absurd hp2 (by simp)
        · rw [if_neg hiv] at hp2
          exact (Except.ok.injEq _ _ ▸ hp2.symm)
      constructor
      · simp only [try_parse_url, if_neg hnotlt, hp, hb, Bool.false_eq_true,
          if_false, hp2]
        rw [show p2.scheme = ("http").data by rw [hform]]
        simp
      · rw [hform]
    · intro hp2
      simp only [try_parse_url, if_neg hnotlt, hp, hb, Bool.false_eq_true,
        if_false, hp2]

/-- Witness for C8_scheme_normalization: the schemeless input foo.bar is
returned with scheme http after the http:// re-parse. -/
theorem C8_scheme_normalization_witness :
    try_parse_url (("foo.bar").data)
        = Except.ok (some ⟨("http").data, ("//foo.bar").data⟩) ∧
      (⟨("http").data, ("//foo.bar").data⟩ : ParsedUrl).scheme
        = ("http").data :=
  ((C8_scheme_normalization (("foo.bar").data) ⟨[], ("foo.bar").data⟩
      (by decide) (by decide)).2 rfl).1
    ⟨("http").data, ("//foo.bar").data⟩ (by decide)
